import Mathlib

/-!
# AIBMS2 frontend: a verification development

A shallow embedding of the battery-monitoring dashboard
(`frontend/src/services/api.js`, `frontend/src/pages/Dashboard.js`,
`frontend/src/pages/BatteryManagement.js`).

Conventions of the embedding:

* an `async` function that may throw is a function into `Except JsError _`;
* `axios.get` / `axios.delete` are taken as a parameter of each operation: a
  function from the request URL to the outcome of the request;
* React state set through `setX` is returned as the new state;
* `console.error(label, error)` is returned as a list of log entries.
-/

namespace AIBMS

/-! ## JavaScript values read by the code -/

/-- The `response` object of an axios error; the code reads `status` only. -/
structure ErrorResponse where
  status : Nat
deriving DecidableEq, Repr

/-- An error object as axios rejects with (an `AxiosError` or an `Error`): the
code reads `error.message` and the optional `error.response`. -/
structure JsError where
  message : String
  response : Option ErrorResponse
deriving DecidableEq, Repr

/-- The value built by `new Error(msg)`: a message and no `response`. -/
def JsError.new (msg : String) : JsError :=
  { message := msg, response := none }

/-- A resolved axios response; the operations read `response.data`. -/
structure AxiosResponse (α : Type) where
  data : α
  status : Nat
deriving DecidableEq, Repr

/-- One call of `console.error(label, error)`. -/
structure LogEntry where
  label : String
  error : JsError
deriving DecidableEq, Repr

/-! ## `services/api.js` -/

def API_BASE_URL : String := "http://localhost:8000/api/v1"

/-- Body of `fetchBatteryStats`; `get` stands for `axios.get`. -/
def fetchBatteryStats {α : Type} (get : String → Except JsError (AxiosResponse α)) :
    Except JsError α :=
  match get (API_BASE_URL ++ "/stats") with
  | .ok response => .ok response.data
  | .error error => .error (JsError.new ("Failed to fetch battery stats: " ++ error.message))

/-- Body of `fetchAlerts`. -/
def fetchAlerts {α : Type} (get : String → Except JsError (AxiosResponse α)) :
    Except JsError α :=
  match get (API_BASE_URL ++ "/alerts") with
  | .ok response => .ok response.data
  | .error error => .error (JsError.new ("Failed to fetch alerts: " ++ error.message))

/-- Body of `fetchBatteries`. -/
def fetchBatteries {α : Type} (get : String → Except JsError (AxiosResponse α)) :
    Except JsError α :=
  match get (API_BASE_URL ++ "/batteries") with
  | .ok response => .ok response.data
  | .error error => .error (JsError.new ("Failed to fetch batteries: " ++ error.message))

/-- Body of `fetchBatteryAnalytics`. -/
def fetchBatteryAnalytics {α : Type} (get : String → Except JsError (AxiosResponse α)) :
    Except JsError α :=
  match get (API_BASE_URL ++ "/analytics") with
  | .ok response => .ok response.data
  | .error error => .error (JsError.new ("Failed to fetch analytics: " ++ error.message))

/-- Body of `deleteBattery`; `delete` stands for `axios.delete`, whose response
is awaited and dropped. -/
def deleteBattery {ι ρ : Type} [ToString ι] (delete : String → Except JsError ρ)
    (batteryId : ι) : Except JsError Unit :=
  match delete (API_BASE_URL ++ "/batteries/" ++ toString batteryId) with
  | .ok _ => .ok ()
  | .error error => .error (JsError.new ("Failed to delete battery: " ++ error.message))

/-- The contract of a read operation `op` on the endpoint `path` with the
error prefix `pfx`, stated for one transport `get`. -/
def ReadContract {α : Type}
    (op : (String → Except JsError (AxiosResponse α)) → Except JsError α)
    (path pfx : String) (get : String → Except JsError (AxiosResponse α)) : Prop :=
  (∀ response, get (API_BASE_URL ++ path) = .ok response → op get = .ok response.data) ∧
  ((∃ err, op get = .error err) ↔ ∃ error, get (API_BASE_URL ++ path) = .error error) ∧
  (∀ error, get (API_BASE_URL ++ path) = .error error →
    op get = .error (JsError.new (pfx ++ error.message)))

/-! ## `pages/BatteryManagement.js` -/

/-- A row of the battery table: the fields the page reads. The id type `ι`
stands for the JSON scalars used as ids; `!==` on them is `≠`. -/
structure Battery (ι : Type) where
  id : ι
  name : String
  type : String
  status : String
  health_score : Int
deriving DecidableEq, Repr

/-- The result of one run of a handler: the `batteries` state afterwards and
what was written to the console. -/
structure ManagementResult (ι : Type) where
  batteries : List (Battery ι)
  console : List LogEntry

/-- Body of `handleDelete`. `confirmed` is the value of `window.confirm(...)`,
`batteries` the state captured by the handler. `setBatteries` is reached only
after `deleteBattery` resolved. -/
def handleDelete {ι ρ : Type} [DecidableEq ι] [ToString ι] (confirmed : Bool)
    (delete : String → Except JsError ρ) (batteries : List (Battery ι)) (batteryId : ι) :
    ManagementResult ι :=
  if confirmed then
    match deleteBattery delete batteryId with
    | .ok () =>
      { batteries := batteries.filter (fun battery => battery.id ≠ batteryId), console := [] }
    | .error error =>
      { batteries := batteries, console := [⟨"Error deleting battery:", error⟩] }
  else
    { batteries := batteries, console := [] }

/-- The icon components imported from `@mui/icons-material`. -/
inductive IconComponent where
  | BatteryFull
  | BatteryChargingFull
  | BatteryAlertOutlined
deriving DecidableEq, Repr

/-- A rendered icon element: the component and its `color` prop, when given. -/
structure Icon where
  component : IconComponent
  color : Option String
deriving DecidableEq, Repr

/-- Body of `getBatteryIcon`: a `switch` on the status string with a `default`. -/
def getBatteryIcon (status : String) : Icon :=
  if status = "HEALTHY" then ⟨.BatteryFull, some "success"⟩
  else if status = "WARNING" then ⟨.BatteryChargingFull, some "warning"⟩
  else if status = "CRITICAL" then ⟨.BatteryAlertOutlined, some "error"⟩
  else ⟨.BatteryFull, none⟩

/-! ## `services/api.js`: the axios interceptors -/

/-- A string-keyed store (`localStorage`, a headers object): the entries in
insertion order, keys pairwise distinct by construction of `setProp`. -/
abbrev Props := List (String × String)

/-- Reading a key: `localStorage.getItem(k)`, `obj[k]`. -/
def getProp (o : Props) (k : String) : Option String :=
  o.lookup k

/-- Assignment `obj[k] = v`: overwrites in place when the key exists, else adds
the key last. -/
def setProp : Props → String → String → Props
  | [], k, v => [(k, v)]
  | (k', v') :: rest, k, v =>
    if k' = k then (k, v) :: rest else (k', v') :: setProp rest k v

/-- The call `localStorage.removeItem(k)`. -/
def removeItem (o : Props) (k : String) : Props :=
  o.filter (fun entry => entry.1 ≠ k)

/-- A request config: `headers`, and every other field gathered in `rest`. -/
structure RequestConfig (ρ : Type) where
  headers : Props
  rest : ρ

/-- The fulfilled handler of `axios.interceptors.request.use`. `if (token)`
holds for a string that is present and not empty. -/
def requestInterceptor {ρ : Type} (localStorage : Props) (config : RequestConfig ρ) :
    RequestConfig ρ :=
  match getProp localStorage "token" with
  | some token =>
    if token ≠ "" then
      { config with headers := setProp config.headers "Authorization" ("Bearer " ++ token) }
    else config
  | none => config

/-- What the response interceptor can touch: `localStorage` and
`window.location.href`. -/
structure Browser where
  localStorage : Props
  href : String
deriving DecidableEq, Repr

/-- The fulfilled handler of `axios.interceptors.response.use`. -/
def responseFulfilled {ρ : Type} (response : ρ) : ρ :=
  response

/-- The rejected handler of `axios.interceptors.response.use`: the settled
value of the returned promise (always `Promise.reject(error)`) and the browser
afterwards. `error.response?.status === 401` is false when `response` is
absent. -/
def responseRejected {ρ : Type} (error : JsError) (b : Browser) : Except JsError ρ × Browser :=
  if error.response.map (fun r => r.status) = some 401 then
    (.error error, { localStorage := removeItem b.localStorage "token", href := "/login" })
  else
    (.error error, b)

/-! ## `pages/Dashboard.js` -/

/-- The object held in `batteryStats`. -/
structure BatteryStats where
  total : Nat
  healthy : Nat
  warning : Nat
  critical : Nat
deriving DecidableEq, Repr

/-- An element of the `alerts` array: the fields the page reads. -/
structure AlertData (ι : Type) where
  id : ι
  severity : String
  message : String
  battery_id : ι
deriving DecidableEq, Repr

/-- The three pieces of state of the `Dashboard` component. -/
structure DashboardState (ι : Type) where
  batteryStats : BatteryStats
  alerts : List (AlertData ι)
  loading : Bool
deriving DecidableEq, Repr

/-- The arguments of the three `useState` calls. -/
def DashboardState.initial {ι : Type} : DashboardState ι :=
  { batteryStats := { total := 0, healthy := 0, warning := 0, critical := 0 },
    alerts := [],
    loading := true }

/-- The state and the console after one run of `fetchDashboardData`. -/
structure DashboardResult (ι : Type) where
  state : DashboardState ι
  console : List LogEntry

/-- Body of `fetchDashboardData`, started from the state `s`. The two reads are
awaited in sequence, both setters come after both awaits, `catch` logs and
`finally` clears `loading`. -/
def fetchDashboardData {ι : Type}
    (getStats : String → Except JsError (AxiosResponse BatteryStats))
    (getAlerts : String → Except JsError (AxiosResponse (List (AlertData ι))))
    (s : DashboardState ι) : DashboardResult ι :=
  match fetchBatteryStats getStats with
  | .error error =>
    { state := { s with loading := false },
      console := [⟨"Error fetching dashboard data:", error⟩] }
  | .ok stats =>
    match fetchAlerts getAlerts with
    | .error error =>
      { state := { s with loading := false },
        console := [⟨"Error fetching dashboard data:", error⟩] }
    | .ok alertsData =>
      { state := { batteryStats := stats, alerts := alertsData, loading := false },
        console := [] }

/-- The array `batteryStatusData` fed to the bar chart. -/
def batteryStatusData (batteryStats : BatteryStats) : List (String × Nat) :=
  [("Healthy", batteryStats.healthy),
   ("Warning", batteryStats.warning),
   ("Critical", batteryStats.critical)]

/-- The method `String.prototype.toLowerCase`, on the ASCII letters. -/
def toLowerCase (s : String) : String :=
  s.toLower

/-- One `<Alert>` element of the "Recent Alerts" panel. -/
structure AlertElement (ι : Type) where
  key : ι
  severity : String
  icon : IconComponent
  message : String
  viewTarget : String
deriving DecidableEq, Repr

/-- The callback of `alerts.slice(0, 5).map(...)`; `viewTarget` is where the
"View" button navigates. -/
def renderAlert {ι : Type} [ToString ι] (alert : AlertData ι) : AlertElement ι :=
  { key := alert.id,
    severity := toLowerCase alert.severity,
    icon :=
      if alert.severity = "CRITICAL" then .BatteryAlertOutlined
      else if alert.severity = "WARNING" then .BatteryChargingFull
      else .BatteryFull,
    message := alert.message,
    viewTarget := "/batteries/" ++ toString alert.battery_id }

/-- The children of the "Recent Alerts" card: `alerts.slice(0, 5).map(...)`. -/
def recentAlerts {ι : Type} [ToString ι] (alerts : List (AlertData ι)) : List (AlertElement ι) :=
  (alerts.take 5).map renderAlert

/-- The number shown in the "Alerts" card: `alerts.length`. -/
def alertsCard {ι : Type} (alerts : List (AlertData ι)) : Nat :=
  alerts.length

/-! ## The pages' reads through the interceptors -/

/-- The call `axios.get(url)` as the pages make it, with the response
interceptor of `api.js` 20-30 installed: the outcome of the underlying request
`send` passes through `responseFulfilled` or `responseRejected`, and the
latter may change the browser. The request interceptor only adds a header to
the config that is sent; what the server answers to it is part of `send`. -/
def axiosGet {α : Type} (send : String → Except JsError (AxiosResponse α)) (b : Browser)
    (url : String) : Except JsError (AxiosResponse α) × Browser :=
  match send url with
  | .ok response => (.ok (responseFulfilled response), b)
  | .error error => responseRejected error b

/-- One run of `fetchDashboardData` in the browser `b`, both reads going
through `axiosGet`: what the component holds and logs, and the browser
afterwards. The alerts request is sent only after the stats read succeeded. -/
def fetchDashboardDataIn {ι : Type}
    (sendStats : String → Except JsError (AxiosResponse BatteryStats))
    (sendAlerts : String → Except JsError (AxiosResponse (List (AlertData ι))))
    (s : DashboardState ι) (b : Browser) : DashboardResult ι × Browser :=
  let afterStats := (axiosGet sendStats b (API_BASE_URL ++ "/stats")).2
  let result := fetchDashboardData (fun url => (axiosGet sendStats b url).1)
    (fun url => (axiosGet sendAlerts afterStats url).1) s
  match fetchBatteryStats (fun url => (axiosGet sendStats b url).1) with
  | .error _ => (result, afterStats)
  | .ok _ => (result, (axiosGet sendAlerts afterStats (API_BASE_URL ++ "/alerts")).2)

/-- What a failed read leaves behind, for a run `R` started in the browser `b`
whose failing request ended with `error` inside the operation with message
prefix `pfx`: the component state is `shown`; the console holds the one entry
logged by the `catch`; with response status 401 the token is gone from
storage (other keys kept) and the location is `/login`; with any other error
the browser is as before. -/
def FailureTraces {ι : Type} (R : DashboardResult ι × Browser) (shown : DashboardState ι)
    (b : Browser) (pfx : String) (error : JsError) : Prop :=
  R.1.state = shown ∧
  R.1.console = [⟨"Error fetching dashboard data:", JsError.new (pfx ++ error.message)⟩] ∧
  ((∃ r, error.response = some r ∧ r.status = 401) →
    getProp R.2.localStorage "token" = none ∧
    (∀ k, k ≠ "token" → getProp R.2.localStorage k = getProp b.localStorage k) ∧
    R.2.href = "/login") ∧
  ((¬ ∃ r, error.response = some r ∧ r.status = 401) → R.2 = b)

/-! ## The evaluation engine behind the API

The pages call `/stats` and `/alerts`; the code that answers them is not among
the frontend sources. The definitions of this section follow the
specification of that engine. -/

/-- Modelled from the spec: the status enum of the missing Health Scorer, three
operational statuses and `UNKNOWN` for a battery without readings (§4.2). -/
inductive Status where
  | HEALTHY
  | WARNING
  | CRITICAL
  | UNKNOWN
deriving DecidableEq, Repr

/-- Modelled from the spec: the missing Health Scorer's threshold policy (§4.2),
one branch per rule as written: `score >= 80 -> HEALTHY`,
`50 <= score < 80 -> WARNING`, `score < 50 -> CRITICAL`. The last branch is the
value for a score that no rule covers. -/
def classify (score : ℚ) : Status :=
  if score ≥ 80 then .HEALTHY
  else if 50 ≤ score ∧ score < 80 then .WARNING
  else if score < 50 then .CRITICAL
  else .UNKNOWN

/-- Modelled from the spec: the missing `fleetStats()` of the Aggregation Store
(§4.5), "counting current `currentStatus` across all batteries" into
`{total, healthy, warning, critical}`, in the reading of §8 where `UNKNOWN`
batteries are excluded from the rollup. -/
def fleetStats (statuses : List Status) : BatteryStats :=
  { total := (statuses.filter (fun st => st ≠ .UNKNOWN)).length,
    healthy := statuses.count .HEALTHY,
    warning := statuses.count .WARNING,
    critical := statuses.count .CRITICAL }

/-- Modelled from the spec: the missing "Get fleet stats" endpoint (§6) as seen
by `axios.get`: the request fails with `failure`, or it answers with the
rollup of the current battery statuses. -/
def statsEndpoint (statuses : List Status) (failure : Option JsError) :
    String → Except JsError (AxiosResponse BatteryStats) :=
  fun url =>
    match failure with
    | some error => .error error
    | none =>
      if url = API_BASE_URL ++ "/stats" then
        .ok { data := fleetStats statuses, status := 200 }
      else
        .error { message := "Request failed with status code 404", response := some ⟨404⟩ }

/-- The equation a fleet-stats value is expected to satisfy. -/
def BatteryStats.Consistent (st : BatteryStats) : Prop :=
  st.total = st.healthy + st.warning + st.critical

/-- Modelled from the spec: the trend enum of the missing Trend Analyzer (§4.3). -/
inductive Trend where
  | IMPROVING
  | STABLE
  | DECLINING
deriving DecidableEq, Repr

/-- Modelled from the spec: alert severities (§3). -/
inductive Severity where
  | INFO
  | WARNING
  | CRITICAL
deriving DecidableEq, Repr

/-- Position of a severity in `INFO < WARNING < CRITICAL`. -/
def Severity.rank : Severity → Nat
  | .INFO => 0
  | .WARNING => 1
  | .CRITICAL => 2

/-- The higher of two severities: an open alert "may escalate
(WARNING→CRITICAL) in place" (§4.4). -/
def Severity.escalate (old new : Severity) : Severity :=
  if old.rank < new.rank then new else old

/-- Modelled from the spec: alert lifecycle states (§3). -/
inductive AlertStatus where
  | OPEN
  | RESOLVED
deriving DecidableEq, Repr

/-- Modelled from the spec: the two conditions of §4.4 that open an alert, a
degraded status (`WARNING` or `CRITICAL`) and a declining trend. -/
inductive ConditionKind where
  | degradedStatus
  | decliningTrend
deriving DecidableEq, Repr

/-- Modelled from the spec: the Alert record of §3 with the condition kind of
its (battery, condition-kind) pair and the internal `lastSeenAt` of §4.4; the
message text, which the spec does not word, is left out. -/
structure Alert where
  id : Nat
  batteryId : Nat
  kind : ConditionKind
  severity : Severity
  createdAt : Nat
  lastSeenAt : Nat
  status : AlertStatus
deriving DecidableEq, Repr

/-- Modelled from the spec: the mutable part of a Battery (§3) together with
the counters of consecutive evaluations that §4.4 needs. -/
structure BatteryRecord where
  currentStatus : Status
  lastEvaluatedAt : Option Nat
  healthyRun : Nat
  decliningRun : Nat
  steadyRun : Nat
deriving DecidableEq, Repr

/-- A battery as created: status `UNKNOWN` (§6), never evaluated. -/
def BatteryRecord.fresh : BatteryRecord :=
  { currentStatus := .UNKNOWN, lastEvaluatedAt := none,
    healthyRun := 0, decliningRun := 0, steadyRun := 0 }

/-- Modelled from the spec: the debounce counts of §4.4, `N` consecutive
declining evaluations to open (default 3) and `M` consecutive clear evaluations
to resolve (default 2), and the severity given to a trend alert. -/
structure AlertConfig where
  N : Nat
  M : Nat
  trendSeverity : Severity

/-- Modelled from the spec: the state of the missing Alert Manager, the battery
records, the alerts in creation order and the next alert id. -/
structure Engine where
  batteries : Nat → BatteryRecord
  alerts : List Alert
  nextAlertId : Nat

/-- The engine before any evaluation. -/
def Engine.empty : Engine :=
  { batteries := fun _ => BatteryRecord.fresh, alerts := [], nextAlertId := 0 }

/-- Modelled from the spec: the input of one evaluation, the Health Scorer's
status and the Trend Analyzer's report for a battery at the timestamp of its
latest telemetry. -/
structure Evaluation where
  batteryId : Nat
  timestamp : Nat
  status : Status
  trend : Trend
deriving DecidableEq, Repr

/-- Whether `a` is the `OPEN` alert of the pair `(b, k)`. -/
def Alert.openFor (b : Nat) (k : ConditionKind) (a : Alert) : Bool :=
  decide (a.batteryId = b) && decide (a.kind = k) && decide (a.status = .OPEN)

/-- The `OPEN` alerts of the pair `(b, k)`. -/
def openAlerts (alerts : List Alert) (b : Nat) (k : ConditionKind) : List Alert :=
  alerts.filter (Alert.openFor b k)

/-- A newly created alert: `OPEN`, first and last seen at `t`. -/
def Alert.opened (id b : Nat) (k : ConditionKind) (sev : Severity) (t : Nat) : Alert :=
  { id := id, batteryId := b, kind := k, severity := sev,
    createdAt := t, lastSeenAt := t, status := .OPEN }

/-- Modelled from the spec: the transitions `NONE -> OPEN` and `OPEN -> OPEN`
of §4.4. With an alert open for the pair the condition "updates the existing
alert rather than duplicating it" (severity escalates in place, `createdAt`
stays, `lastSeenAt` advances); otherwise a new `OPEN` alert is created. -/
def raise (alerts : List Alert) (nextId : Nat) (b : Nat) (k : ConditionKind)
    (sev : Severity) (t : Nat) : List Alert × Nat :=
  if alerts.any (Alert.openFor b k) then
    (alerts.map (fun a =>
      if a.openFor b k then
        { a with severity := Severity.escalate a.severity sev, lastSeenAt := t }
      else a), nextId)
  else
    (alerts ++ [Alert.opened nextId b k sev t], nextId + 1)

/-- Modelled from the spec: the transition `OPEN -> RESOLVED` of §4.4 for the
pair `(b, k)`. -/
def resolve (alerts : List Alert) (b : Nat) (k : ConditionKind) : List Alert :=
  alerts.map (fun a => if a.openFor b k then { a with status := .RESOLVED } else a)

/-- Whether the evaluation brings no new telemetry for its battery: its
timestamp is not after the battery's `lastEvaluatedAt`. -/
def Engine.stale (s : Engine) (e : Evaluation) : Bool :=
  match (s.batteries e.batteryId).lastEvaluatedAt with
  | some t => decide (e.timestamp ≤ t)
  | none => false

/-- Modelled from the spec: the degraded-status condition of §4.4 in one
evaluation. `WARNING` or `CRITICAL` opens the alert of the pair or updates it;
`HEALTHY` for `M` consecutive evaluations resolves it; `healthyRun` counts the
consecutive `HEALTHY` evaluations up to and including this one. -/
def statusStep (cfg : AlertConfig) (healthyRun : Nat) (e : Evaluation)
    (p : List Alert × Nat) : List Alert × Nat :=
  match e.status with
  | .WARNING => raise p.1 p.2 e.batteryId .degradedStatus .WARNING e.timestamp
  | .CRITICAL => raise p.1 p.2 e.batteryId .degradedStatus .CRITICAL e.timestamp
  | .HEALTHY =>
    if cfg.M ≤ healthyRun then (resolve p.1 e.batteryId .degradedStatus, p.2) else p
  | .UNKNOWN => p

/-- Modelled from the spec: the declining-trend condition of §4.4 in one
evaluation. `DECLINING` for `N` consecutive evaluations opens the alert of the
pair or updates it; a non-declining trend for `M` consecutive evaluations
resolves it. -/
def trendStep (cfg : AlertConfig) (decliningRun steadyRun : Nat) (e : Evaluation)
    (p : List Alert × Nat) : List Alert × Nat :=
  if e.trend = .DECLINING then
    if cfg.N ≤ decliningRun then
      raise p.1 p.2 e.batteryId .decliningTrend cfg.trendSeverity e.timestamp
    else p
  else
    if cfg.M ≤ steadyRun then (resolve p.1 e.batteryId .decliningTrend, p.2) else p

/-- The battery record after an evaluation with new telemetry: status,
`lastEvaluatedAt` and the three counters of consecutive evaluations. -/
def BatteryRecord.advance (r : BatteryRecord) (e : Evaluation) : BatteryRecord :=
  { currentStatus := e.status,
    lastEvaluatedAt := some e.timestamp,
    healthyRun := if e.status = .HEALTHY then r.healthyRun + 1 else 0,
    decliningRun := if e.trend = .DECLINING then r.decliningRun + 1 else 0,
    steadyRun := if e.trend = .DECLINING then 0 else r.steadyRun + 1 }

/-- Modelled from the spec: one evaluation cycle of the missing Alert Manager
(§4.4). An evaluation without new telemetry changes nothing (§8,
idempotence). Otherwise the battery's status, counters and `lastEvaluatedAt`
are updated together and the two conditions are run on the alerts, the
degraded status first. -/
def evaluate (cfg : AlertConfig) (s : Engine) (e : Evaluation) : Engine :=
  if s.stale e then s
  else
    let r := (s.batteries e.batteryId).advance e
    let after := trendStep cfg r.decliningRun r.steadyRun e
      (statusStep cfg r.healthyRun e (s.alerts, s.nextAlertId))
    { batteries := Function.update s.batteries e.batteryId r,
      alerts := after.1,
      nextAlertId := after.2 }

/-- The engine after a sequence of evaluations, oldest first. -/
def runEvaluations (cfg : AlertConfig) (s : Engine) (es : List Evaluation) : Engine :=
  es.foldl (evaluate cfg) s

/-- At most one `OPEN` alert per (battery, condition-kind) pair. -/
def AtMostOneOpen (alerts : List Alert) : Prop :=
  ∀ b k, (openAlerts alerts b k).length ≤ 1

/-! ## Theorems -/

/-! ### Helper lemmas -/

theorem getProp_setProp_self (o : Props) (k v : String) :
    getProp (setProp o k v) k = some v := by
  induction o with
  | nil => simp [setProp, getProp, List.lookup]
  | cons p rest ih =>
    obtain ⟨k', v'⟩ := p
    by_cases h : k' = k
    · simp [setProp, h, getProp, List.lookup]
    · have hk : (k == k') = false := by simpa using fun h' => h h'.symm
      simp only [setProp, h, if_false, getProp, List.lookup, hk]
      exact ih

theorem getProp_setProp_other (o : Props) (k v j : String) (hj : j ≠ k) :
    getProp (setProp o k v) j = getProp o j := by
  induction o with
  | nil =>
    have hk : (j == k) = false := by simpa using hj
    simp [setProp, getProp, List.lookup, hk]
  | cons p rest ih =>
    obtain ⟨k', v'⟩ := p
    by_cases h : k' = k
    · subst h
      have hk : (j == k') = false := by simpa using hj
      simp [setProp, getProp, List.lookup, hk]
    · simp only [setProp, h, if_false, getProp, List.lookup]
      cases hjk : (j == k') with
      | true => rfl
      | false => exact ih

theorem getProp_removeItem_self (o : Props) (k : String) :
    getProp (removeItem o k) k = none := by
  induction o with
  | nil => simp [removeItem, getProp, List.lookup]
  | cons p rest ih =>
    obtain ⟨k', v'⟩ := p
    by_cases h : k' = k
    · simpa [removeItem, h, getProp] using ih
    · have hk : (k == k') = false := by simpa using fun h' => h h'.symm
      simp only [removeItem, getProp] at ih ⊢
      simp only [List.filter, h, ne_eq, not_false_eq_true, decide_True, List.lookup, hk]
      exact ih

theorem getProp_removeItem_other (o : Props) (k j : String) (hj : j ≠ k) :
    getProp (removeItem o k) j = getProp o j := by
  induction o with
  | nil => simp [removeItem, getProp, List.lookup]
  | cons p rest ih =>
    obtain ⟨k', v'⟩ := p
    simp only [removeItem, getProp] at ih ⊢
    by_cases h : k' = k
    · subst h
      have hk : (j == k') = false := by simpa using hj
      simp only [List.filter, ne_eq, not_true_eq_false, decide_False, List.lookup, hk]
      exact ih
    · simp only [List.filter, h, ne_eq, not_false_eq_true, decide_True, List.lookup]
      cases hjk : (j == k') with
      | true => rfl
      | false => exact ih

/-! ### Battery deletion -/

/-- C1: in `handleDelete`, when the user confirms and `deleteBattery` succeeds,
the new list is the displayed list with the batteries of that id removed: no
battery of that id remains, the new list is a sublist of the old one (relative
order kept) and every other battery occurs as often as before; when the user
declines or `deleteBattery` fails, the list is unchanged. -/
theorem handleDelete_list {ι ρ : Type} [DecidableEq ι] [ToString ι] (confirmed : Bool)
    (delete : String → Except JsError ρ) (L : List (Battery ι)) (b : ι) :
    ((confirmed = true ∧ deleteBattery delete b = .ok ()) →
      (∀ x ∈ (handleDelete confirmed delete L b).batteries, x.id ≠ b) ∧
      (handleDelete confirmed delete L b).batteries.Sublist L ∧
      (∀ x : Battery ι, x.id ≠ b →
        (handleDelete confirmed delete L b).batteries.count x = L.count x)) ∧
    ((confirmed = false ∨ ∃ err, deleteBattery delete b = .error err) →
      (handleDelete confirmed delete L b).batteries = L) := by
  constructor
  · rintro ⟨hc, hd⟩
    have hres : (handleDelete confirmed delete L b).batteries
        = L.filter (fun battery => battery.id ≠ b) := by
      simp [handleDelete, hc, hd]
    rw [hres]
    refine ⟨?_, List.filter_sublist L, ?_⟩
    · intro x hx
      simpa using (List.mem_filter.mp hx).2
    · intro x hx
      rw [List.count_filter]
      simpa using hx
  · rintro (hc | ⟨err, hd⟩)
    · simp [handleDelete, hc]
    · cases confirmed <;> simp [handleDelete, hd]

/-- Witness of C1: a confirmed, successful deletion of battery 2 from a list of
three, and a declined one. -/
theorem handleDelete_list_witness :
    ((∀ x ∈ (handleDelete true (fun _ => (.ok () : Except JsError Unit))
        [⟨1, "a", "li", "HEALTHY", 90⟩, ⟨2, "b", "li", "WARNING", 60⟩,
         ⟨3, "c", "li", "CRITICAL", 10⟩] (2 : Nat)).batteries, x.id ≠ 2) ∧
      (handleDelete true (fun _ => (.ok () : Except JsError Unit))
        [⟨1, "a", "li", "HEALTHY", 90⟩, ⟨2, "b", "li", "WARNING", 60⟩,
         ⟨3, "c", "li", "CRITICAL", 10⟩] (2 : Nat)).batteries.Sublist
        [⟨1, "a", "li", "HEALTHY", 90⟩, ⟨2, "b", "li", "WARNING", 60⟩,
         ⟨3, "c", "li", "CRITICAL", 10⟩] ∧
      (∀ x : Battery Nat, x.id ≠ 2 →
        (handleDelete true (fun _ => (.ok () : Except JsError Unit))
          [⟨1, "a", "li", "HEALTHY", 90⟩, ⟨2, "b", "li", "WARNING", 60⟩,
           ⟨3, "c", "li", "CRITICAL", 10⟩] (2 : Nat)).batteries.count x
        = List.count x [⟨1, "a", "li", "HEALTHY", 90⟩, ⟨2, "b", "li", "WARNING", 60⟩,
           ⟨3, "c", "li", "CRITICAL", 10⟩])) ∧
    (handleDelete false (fun _ => (.ok () : Except JsError Unit))
        [⟨1, "a", "li", "HEALTHY", 90⟩, ⟨2, "b", "li", "WARNING", 60⟩] (2 : Nat)).batteries
      = [⟨1, "a", "li", "HEALTHY", 90⟩, ⟨2, "b", "li", "WARNING", 60⟩] :=
  ⟨(handleDelete_list true (fun _ => (.ok () : Except JsError Unit)) _ 2).1 ⟨rfl, rfl⟩,
   (handleDelete_list false (fun _ => (.ok () : Except JsError Unit)) _ 2).2 (Or.inl rfl)⟩

/-! ### Dashboard: failed reads -/

/-- C2 fails: after the mount-time fetch, a failed stats read leaves the
Dashboard in the very state it has after both reads succeed with all-zero
stats and no alerts. -/
theorem dashboard_failure_equals_empty_success :
    (fetchDashboardData (ι := Nat) (fun _ => .error ⟨"Network Error", none⟩)
        (fun _ => .ok ⟨[], 200⟩) DashboardState.initial).state
      = (fetchDashboardData (ι := Nat) (fun _ => .ok ⟨⟨0, 0, 0, 0⟩, 200⟩)
        (fun _ => .ok ⟨[], 200⟩) DashboardState.initial).state := by
  decide

theorem responseRejected_browser {ρ : Type} (error : JsError) (b : Browser) :
    ((∃ r, error.response = some r ∧ r.status = 401) →
      (responseRejected (ρ := ρ) error b).2
        = { localStorage := removeItem b.localStorage "token", href := "/login" }) ∧
    ((¬ ∃ r, error.response = some r ∧ r.status = 401) →
      (responseRejected (ρ := ρ) error b).2 = b) := by
  constructor
  · rintro ⟨r, hr, hs⟩
    simp [responseRejected, hr, hs]
  · intro h
    have hcond : ¬ (error.response.map (fun r => r.status) = some 401) := by
      intro hc
      apply h
      cases hr : error.response with
      | none => rw [hr] at hc; cases hc
      | some r =>
        rw [hr] at hc
        exact ⟨r, rfl, by simpa using hc⟩
    simp [responseRejected, hcond]

theorem responseRejected_outcome {ρ : Type} (error : JsError) (b : Browser) :
    (responseRejected (ρ := ρ) error b).1 = .error error := by
  unfold responseRejected
  split <;> rfl

theorem failureTraces_of_rejected {ι : Type} (R : DashboardResult ι × Browser)
    (shown : DashboardState ι) (b : Browser) (pfx : String) (error : JsError)
    (hstate : R.1.state = shown)
    (hlog : R.1.console
      = [⟨"Error fetching dashboard data:", JsError.new (pfx ++ error.message)⟩])
    (hb : R.2 = (responseRejected (ρ := Unit) error b).2) :
    FailureTraces R shown b pfx error := by
  refine ⟨hstate, hlog, ?_, ?_⟩
  · intro h
    rw [hb, (responseRejected_browser (ρ := Unit) error b).1 h]
    exact ⟨getProp_removeItem_self _ _, fun k hk => getProp_removeItem_other _ _ _ hk, rfl⟩
  · intro h
    rw [hb, (responseRejected_browser (ρ := Unit) error b).2 h]

theorem responseRejected_browser_indep {ρ σ : Type} (error : JsError) (b : Browser) :
    (responseRejected (ρ := ρ) error b).2 = (responseRejected (ρ := σ) error b).2 := by
  unfold responseRejected
  split <;> rfl

/-- C2 as amended: with both reads going through the response interceptor,
whenever `fetchBatteryStats` or `fetchAlerts` fails during the mount-time
fetch, the state the Dashboard holds (batteryStats, alerts, loading) is the
one of an all-zero, no-alert success, so the component state does not tell the
two apart. What a failure does leave: the Dashboard logs one `console.error`
entry with the raised error, and when the failing request's error has response
status 401 the interceptor removes the stored token and sets the location to
`/login`; for every other failure storage and location are unchanged. A fetch
in which both reads succeed logs nothing and leaves the browser unchanged. -/
theorem dashboard_failure_traces {ι : Type}
    (sendStats : String → Except JsError (AxiosResponse BatteryStats))
    (sendAlerts : String → Except JsError (AxiosResponse (List (AlertData ι))))
    (b : Browser) :
    (∀ error, sendStats (API_BASE_URL ++ "/stats") = .error error →
      FailureTraces (fetchDashboardDataIn sendStats sendAlerts DashboardState.initial b)
        (fetchDashboardDataIn (ι := ι) (fun _ => .ok ⟨⟨0, 0, 0, 0⟩, 200⟩)
          (fun _ => .ok ⟨[], 200⟩) DashboardState.initial b).1.state
        b "Failed to fetch battery stats: " error) ∧
    (∀ response error, (sendStats (API_BASE_URL ++ "/stats") = .ok response ∧
        sendAlerts (API_BASE_URL ++ "/alerts") = .error error) →
      FailureTraces (fetchDashboardDataIn sendStats sendAlerts DashboardState.initial b)
        (fetchDashboardDataIn (ι := ι) (fun _ => .ok ⟨⟨0, 0, 0, 0⟩, 200⟩)
          (fun _ => .ok ⟨[], 200⟩) DashboardState.initial b).1.state
        b "Failed to fetch alerts: " error) ∧
    (∀ response alertsResponse, (sendStats (API_BASE_URL ++ "/stats") = .ok response ∧
        sendAlerts (API_BASE_URL ++ "/alerts") = .ok alertsResponse) →
      (fetchDashboardDataIn sendStats sendAlerts DashboardState.initial b).1.state
        = { batteryStats := response.data, alerts := alertsResponse.data,
            loading := false } ∧
      (fetchDashboardDataIn sendStats sendAlerts DashboardState.initial b).1.console = [] ∧
      (fetchDashboardDataIn sendStats sendAlerts DashboardState.initial b).2 = b) := by
  have hzero : (fetchDashboardDataIn (ι := ι) (fun _ => .ok ⟨⟨0, 0, 0, 0⟩, 200⟩)
      (fun _ => .ok ⟨[], 200⟩) DashboardState.initial b).1.state
      = { batteryStats := ⟨0, 0, 0, 0⟩, alerts := [], loading := false } := rfl
  rw [hzero]
  refine ⟨?_, ?_, ?_⟩
  · intro error hs
    have hget : fetchBatteryStats (fun url => (axiosGet sendStats b url).1)
        = .error (JsError.new ("Failed to fetch battery stats: " ++ error.message)) := by
      simp [fetchBatteryStats, axiosGet, hs, responseRejected_outcome]
    apply failureTraces_of_rejected
    · simp [fetchDashboardDataIn, fetchDashboardData, hget, DashboardState.initial]
    · simp [fetchDashboardDataIn, fetchDashboardData, hget]
    · have h2 : (fetchDashboardDataIn sendStats sendAlerts DashboardState.initial b).2
          = (axiosGet sendStats b (API_BASE_URL ++ "/stats")).2 := by
        simp only [fetchDashboardDataIn, hget]
      rw [h2]
      simp only [axiosGet, hs]
      exact responseRejected_browser_indep error b
  · rintro response error ⟨hs, ha⟩
    have hget : fetchBatteryStats (fun url => (axiosGet sendStats b url).1)
        = .ok response.data := by
      simp [fetchBatteryStats, axiosGet, hs, responseFulfilled]
    have hb1 : (axiosGet sendStats b (API_BASE_URL ++ "/stats")).2 = b := by
      simp [axiosGet, hs]
    have hgetA : fetchAlerts (fun url => (axiosGet sendAlerts b url).1)
        = .error (JsError.new ("Failed to fetch alerts: " ++ error.message)) := by
      simp [fetchAlerts, axiosGet, ha, responseRejected_outcome]
    apply failureTraces_of_rejected
    · simp [fetchDashboardDataIn, fetchDashboardData, hget, hb1, hgetA,
        DashboardState.initial]
    · simp [fetchDashboardDataIn, fetchDashboardData, hget, hb1, hgetA]
    · have h2 : (fetchDashboardDataIn sendStats sendAlerts DashboardState.initial b).2
          = (axiosGet sendAlerts b (API_BASE_URL ++ "/alerts")).2 := by
        simp only [fetchDashboardDataIn, hget, hb1]
      rw [h2]
      simp only [axiosGet, ha]
      exact responseRejected_browser_indep error b
  · rintro response alertsResponse ⟨hs, ha⟩
    have hget : fetchBatteryStats (fun url => (axiosGet sendStats b url).1)
        = .ok response.data := by
      simp [fetchBatteryStats, axiosGet, hs, responseFulfilled]
    have hb1 : (axiosGet sendStats b (API_BASE_URL ++ "/stats")).2 = b := by
      simp [axiosGet, hs]
    have hgetA : fetchAlerts (fun url => (axiosGet sendAlerts b url).1)
        = .ok alertsResponse.data := by
      simp [fetchAlerts, axiosGet, ha, responseFulfilled]
    refine ⟨?_, ?_, ?_⟩
    · simp [fetchDashboardDataIn, fetchDashboardData, hget, hb1, hgetA]
    · simp [fetchDashboardDataIn, fetchDashboardData, hget, hb1, hgetA]
    · have h2 : (fetchDashboardDataIn sendStats sendAlerts DashboardState.initial b).2
          = (axiosGet sendAlerts b (API_BASE_URL ++ "/alerts")).2 := by
        simp only [fetchDashboardDataIn, hget, hb1]
      rw [h2]
      simp only [axiosGet, ha]

/-- Witness of C2 as amended: a 401 on the stats read leaves the all-zero state,
one log entry, no token and the location `/login`; a network error on the
alerts read after a successful stats read leaves the browser as it was; a fetch
with two successful reads logs nothing and leaves the browser as it was. -/
theorem dashboard_failure_traces_witness :
    ((fetchDashboardDataIn (ι := Nat)
          (fun _ => .error ⟨"Request failed with status code 401", some ⟨401⟩⟩)
          (fun _ => .ok ⟨[], 200⟩) DashboardState.initial
          ⟨[("theme", "dark"), ("token", "abc")], "/"⟩).1.state
        = (fetchDashboardDataIn (ι := Nat) (fun _ => .ok ⟨⟨0, 0, 0, 0⟩, 200⟩)
          (fun _ => .ok ⟨[], 200⟩) DashboardState.initial
          ⟨[("theme", "dark"), ("token", "abc")], "/"⟩).1.state ∧
      (fetchDashboardDataIn (ι := Nat)
          (fun _ => .error ⟨"Request failed with status code 401", some ⟨401⟩⟩)
          (fun _ => .ok ⟨[], 200⟩) DashboardState.initial
          ⟨[("theme", "dark"), ("token", "abc")], "/"⟩).1.console
        = [⟨"Error fetching dashboard data:",
            JsError.new ("Failed to fetch battery stats: " ++
              "Request failed with status code 401")⟩] ∧
      (fetchDashboardDataIn (ι := Nat)
          (fun _ => .error ⟨"Request failed with status code 401", some ⟨401⟩⟩)
          (fun _ => .ok ⟨[], 200⟩) DashboardState.initial
          ⟨[("theme", "dark"), ("token", "abc")], "/"⟩).2.href = "/login") ∧
    (fetchDashboardDataIn (ι := Nat) (fun _ => .ok ⟨⟨3, 1, 1, 1⟩, 200⟩)
        (fun _ => .error ⟨"Network Error", none⟩) DashboardState.initial
        ⟨[("token", "abc")], "/"⟩).2 = ⟨[("token", "abc")], "/"⟩ ∧
    ((fetchDashboardDataIn (ι := Nat) (fun _ => .ok ⟨⟨3, 1, 1, 1⟩, 200⟩)
        (fun _ => .ok ⟨[], 200⟩) DashboardState.initial
        ⟨[("token", "abc")], "/"⟩).1.console = [] ∧
      (fetchDashboardDataIn (ι := Nat) (fun _ => .ok ⟨⟨3, 1, 1, 1⟩, 200⟩)
        (fun _ => .ok ⟨[], 200⟩) DashboardState.initial
        ⟨[("token", "abc")], "/"⟩).2 = ⟨[("token", "abc")], "/"⟩) :=
  ⟨⟨((dashboard_failure_traces (ι := Nat)
        (fun _ => .error ⟨"Request failed with status code 401", some ⟨401⟩⟩)
        (fun _ => .ok ⟨[], 200⟩) ⟨[("theme", "dark"), ("token", "abc")], "/"⟩).1
        _ rfl).1,
     ((dashboard_failure_traces (ι := Nat)
        (fun _ => .error ⟨"Request failed with status code 401", some ⟨401⟩⟩)
        (fun _ => .ok ⟨[], 200⟩) ⟨[("theme", "dark"), ("token", "abc")], "/"⟩).1
        _ rfl).2.1,
     (((dashboard_failure_traces (ι := Nat)
        (fun _ => .error ⟨"Request failed with status code 401", some ⟨401⟩⟩)
        (fun _ => .ok ⟨[], 200⟩) ⟨[("theme", "dark"), ("token", "abc")], "/"⟩).1
        _ rfl).2.2.1 ⟨⟨401⟩, rfl, rfl⟩).2.2⟩,
   ((dashboard_failure_traces (ι := Nat) (fun _ => .ok ⟨⟨3, 1, 1, 1⟩, 200⟩)
      (fun _ => .error ⟨"Network Error", none⟩) ⟨[("token", "abc")], "/"⟩).2.1
      _ _ ⟨rfl, rfl⟩).2.2.2 (by decide),
   ((dashboard_failure_traces (ι := Nat) (fun _ => .ok ⟨⟨3, 1, 1, 1⟩, 200⟩)
      (fun _ => .ok ⟨[], 200⟩) ⟨[("token", "abc")], "/"⟩).2.2
      _ _ ⟨rfl, rfl⟩).2⟩

/-! ### API read operations -/

theorem readContract_of_match {α : Type}
    (op : (String → Except JsError (AxiosResponse α)) → Except JsError α)
    (path pfx : String) (get : String → Except JsError (AxiosResponse α))
    (hop : op get = match get (API_BASE_URL ++ path) with
      | .ok response => .ok response.data
      | .error error => .error (JsError.new (pfx ++ error.message))) :
    ReadContract op path pfx get := by
  unfold ReadContract
  rw [hop]
  cases hg : get (API_BASE_URL ++ path) with
  | error e => simp
  | ok r => simp

/-- C3: each of the read operations `fetchBatteryStats`, `fetchAlerts`,
`fetchBatteries` and `fetchBatteryAnalytics` returns the response body
unchanged when its GET succeeds, fails exactly when its GET fails, and then
raises an `Error` whose message is the operation's fixed prefix followed by the
transport error's message. -/
theorem read_operations_propagate {α : Type}
    (get : String → Except JsError (AxiosResponse α)) :
    ReadContract fetchBatteryStats "/stats" "Failed to fetch battery stats: " get ∧
    ReadContract fetchAlerts "/alerts" "Failed to fetch alerts: " get ∧
    ReadContract fetchBatteries "/batteries" "Failed to fetch batteries: " get ∧
    ReadContract fetchBatteryAnalytics "/analytics" "Failed to fetch analytics: " get :=
  ⟨readContract_of_match _ _ _ _ rfl, readContract_of_match _ _ _ _ rfl,
   readContract_of_match _ _ _ _ rfl, readContract_of_match _ _ _ _ rfl⟩

/-! ### Status thresholds and fleet statistics -/

/-- C4: for every health score `s`, the classification is `HEALTHY` iff
`s >= 80`, `WARNING` iff `50 <= s < 80` and `CRITICAL` iff `s < 50`; in
particular 80 is `HEALTHY` and 50 is `WARNING`. -/
theorem classify_thresholds (s : ℚ) :
    (classify s = .HEALTHY ↔ s ≥ 80) ∧
    (classify s = .WARNING ↔ 50 ≤ s ∧ s < 80) ∧
    (classify s = .CRITICAL ↔ s < 50) ∧
    classify 80 = .HEALTHY ∧ classify 50 = .WARNING := by
  have h80 : classify 80 = .HEALTHY := by simp [classify]
  have h50 : classify 50 = .WARNING := by
    unfold classify
    norm_num
  refine ⟨?_, ?_, ?_, h80, h50⟩
  · unfold classify
    by_cases h1 : s ≥ 80
    · simp [h1]
    · by_cases h2 : 50 ≤ s ∧ s < 80
      · simp [h1, h2]
      · by_cases h3 : s < 50 <;> simp [h1, h2, h3]
  · unfold classify
    by_cases h1 : s ≥ 80
    · have : ¬ s < 80 := not_lt.mpr h1
      simp [h1, this]
    · by_cases h2 : 50 ≤ s ∧ s < 80
      · simp [h1, h2]
      · by_cases h3 : s < 50 <;> simp [h1, h2, h3]
  · unfold classify
    by_cases h1 : s ≥ 80
    · have : ¬ s < 50 := by
        intro h
        have h' : (80 : ℚ) ≤ s := h1
        linarith
      simp [h1, this]
    · by_cases h2 : 50 ≤ s ∧ s < 80
      · have : ¬ s < 50 := not_lt.mpr h2.1
        simp [h1, h2, this]
      · by_cases h3 : s < 50 <;> simp [h1, h2, h3]

theorem fleetStats_consistent (statuses : List Status) :
    (fleetStats statuses).Consistent := by
  unfold BatteryStats.Consistent fleetStats
  induction statuses with
  | nil => simp
  | cons st rest ih =>
    simp only [ne_eq, decide_not] at ih ⊢
    cases st <;> simp [List.filter, List.count_cons] <;> omega

/-- C5: every fleet-stats value the Dashboard holds, the initial one and the
one set from `fetchBatteryStats` when `/stats` answers with the rollup of the
current battery statuses, satisfies `total = healthy + warning + critical`, so
the three bars of the chart add up to the total; for batteries with statuses
`[HEALTHY, HEALTHY, WARNING, CRITICAL]` the stats are
`{total:4, healthy:2, warning:1, critical:1}`. -/
theorem dashboard_stats_consistent {ι : Type} (statuses : List Status)
    (failure : Option JsError)
    (getAlerts : String → Except JsError (AxiosResponse (List (AlertData ι)))) :
    (DashboardState.initial (ι := ι)).batteryStats.Consistent ∧
    (fetchDashboardData (statsEndpoint statuses failure) getAlerts
        DashboardState.initial).state.batteryStats.Consistent ∧
    ((batteryStatusData (fetchDashboardData (statsEndpoint statuses failure) getAlerts
        DashboardState.initial).state.batteryStats).map Prod.snd).sum
      = (fetchDashboardData (statsEndpoint statuses failure) getAlerts
        DashboardState.initial).state.batteryStats.total ∧
    fleetStats [.HEALTHY, .HEALTHY, .WARNING, .CRITICAL]
      = { total := 4, healthy := 2, warning := 1, critical := 1 } := by
  have hinit : (DashboardState.initial (ι := ι)).batteryStats.Consistent := by
    simp [DashboardState.initial, BatteryStats.Consistent]
  have hheld : (fetchDashboardData (statsEndpoint statuses failure) getAlerts
      DashboardState.initial).state.batteryStats.Consistent := by
    cases failure with
    | some e => simpa [fetchDashboardData, fetchBatteryStats, statsEndpoint] using hinit
    | none =>
      cases ha : fetchAlerts getAlerts with
      | error e =>
        simpa [fetchDashboardData, fetchBatteryStats, statsEndpoint, ha] using hinit
      | ok alertsData =>
        simpa [fetchDashboardData, fetchBatteryStats, statsEndpoint, ha]
          using fleetStats_consistent statuses
  refine ⟨hinit, hheld, ?_, by decide⟩
  have h := hheld
  unfold BatteryStats.Consistent at h
  simp only [batteryStatusData, List.map, List.sum_cons, List.sum_nil]
  omega

/-! ### Status icons -/

/-- C7: `getBatteryIcon` gives an icon for every status string; `HEALTHY`,
`WARNING` and `CRITICAL` map to BatteryFull/success,
BatteryChargingFull/warning and BatteryAlertOutlined/error, which are pairwise
distinct; `UNKNOWN`, like every string other than those three, maps to the
uncoloured BatteryFull, which differs from each of the three. -/
theorem getBatteryIcon_mapping (status : String) :
    (∃ icon, getBatteryIcon status = icon) ∧
    getBatteryIcon "HEALTHY" = ⟨.BatteryFull, some "success"⟩ ∧
    getBatteryIcon "WARNING" = ⟨.BatteryChargingFull, some "warning"⟩ ∧
    getBatteryIcon "CRITICAL" = ⟨.BatteryAlertOutlined, some "error"⟩ ∧
    getBatteryIcon "HEALTHY" ≠ getBatteryIcon "WARNING" ∧
    getBatteryIcon "HEALTHY" ≠ getBatteryIcon "CRITICAL" ∧
    getBatteryIcon "WARNING" ≠ getBatteryIcon "CRITICAL" ∧
    getBatteryIcon "UNKNOWN" = ⟨.BatteryFull, none⟩ ∧
    ((status ≠ "HEALTHY" ∧ status ≠ "WARNING" ∧ status ≠ "CRITICAL") →
      getBatteryIcon status = ⟨.BatteryFull, none⟩) ∧
    (⟨.BatteryFull, none⟩ : Icon) ≠ getBatteryIcon "HEALTHY" ∧
    (⟨.BatteryFull, none⟩ : Icon) ≠ getBatteryIcon "WARNING" ∧
    (⟨.BatteryFull, none⟩ : Icon) ≠ getBatteryIcon "CRITICAL" := by
  refine ⟨⟨_, rfl⟩, by decide, by decide, by decide, by decide, by decide, by decide,
    by decide, ?_, by decide, by decide, by decide⟩
  rintro ⟨h1, h2, h3⟩
  simp [getBatteryIcon, h1, h2, h3]

/-- Witness of C7: the status string `"OFFLINE"` falls to the default icon. -/
theorem getBatteryIcon_mapping_witness :
    getBatteryIcon "OFFLINE" = ⟨.BatteryFull, none⟩ :=
  (getBatteryIcon_mapping "OFFLINE").2.2.2.2.2.2.2.2.1 ⟨by decide, by decide, by decide⟩

/-! ### Interceptors -/

/-- C8: with a stored token `t` that is not empty, the request interceptor
returns the config with `headers.Authorization` equal to `"Bearer "` followed
by `t`, every other header and every other field unchanged; with no stored
token, or an empty one, it returns the config unchanged. -/
theorem requestInterceptor_frame {ρ : Type} (localStorage : Props)
    (c : RequestConfig ρ) :
    (∀ t, (getProp localStorage "token" = some t ∧ t ≠ "") →
      getProp (requestInterceptor localStorage c).headers "Authorization"
        = some ("Bearer " ++ t) ∧
      (∀ k, k ≠ "Authorization" →
        getProp (requestInterceptor localStorage c).headers k = getProp c.headers k) ∧
      (requestInterceptor localStorage c).rest = c.rest) ∧
    ((getProp localStorage "token" = none ∨ getProp localStorage "token" = some "") →
      requestInterceptor localStorage c = c) := by
  constructor
  · rintro t ⟨ht, hne⟩
    have hres : requestInterceptor localStorage c
        = { c with headers := setProp c.headers "Authorization" ("Bearer " ++ t) } := by
      simp [requestInterceptor, ht, hne]
    rw [hres]
    exact ⟨getProp_setProp_self _ _ _, fun k hk => getProp_setProp_other _ _ _ _ hk, rfl⟩
  · rintro (h | h) <;> simp [requestInterceptor, h]

/-- Witness of C8: a stored token `abc` on a config that already has a
`Accept` header, and an empty stored token. -/
theorem requestInterceptor_frame_witness :
    (getProp (requestInterceptor [("token", "abc")]
        ({ headers := [("Accept", "application/json")], rest := "/stats" } :
          RequestConfig String)).headers "Authorization" = some ("Bearer " ++ "abc") ∧
      (∀ k, k ≠ "Authorization" →
        getProp (requestInterceptor [("token", "abc")]
          ({ headers := [("Accept", "application/json")], rest := "/stats" } :
            RequestConfig String)).headers k
          = getProp [("Accept", "application/json")] k) ∧
      (requestInterceptor [("token", "abc")]
        ({ headers := [("Accept", "application/json")], rest := "/stats" } :
          RequestConfig String)).rest = "/stats") ∧
    requestInterceptor [("token", "")]
        ({ headers := [("Accept", "application/json")], rest := "/stats" } :
          RequestConfig String)
      = { headers := [("Accept", "application/json")], rest := "/stats" } :=
  ⟨(requestInterceptor_frame [("token", "abc")] _).1 "abc" ⟨by decide, by decide⟩,
   (requestInterceptor_frame [("token", "")] _).2 (Or.inr (by decide))⟩

/-- C9: the response interceptor rejects with the very error it received; when
the error has a response with status 401 the stored token is removed (other
stored keys kept) and the location becomes `/login`; for every other error,
also one without a response, storage and location are unchanged; a successful
response is returned unchanged. -/
theorem responseInterceptor_effects {ρ : Type} (e : JsError) (b : Browser)
    (response : ρ) :
    (responseRejected (ρ := ρ) e b).1 = .error e ∧
    ((∃ r, e.response = some r ∧ r.status = 401) →
      getProp (responseRejected (ρ := ρ) e b).2.localStorage "token" = none ∧
      (∀ k, k ≠ "token" →
        getProp (responseRejected (ρ := ρ) e b).2.localStorage k
          = getProp b.localStorage k) ∧
      (responseRejected (ρ := ρ) e b).2.href = "/login") ∧
    ((¬ ∃ r, e.response = some r ∧ r.status = 401) →
      (responseRejected (ρ := ρ) e b).2 = b) ∧
    responseFulfilled response = response := by
  refine ⟨?_, ?_, ?_, rfl⟩
  · unfold responseRejected
    split <;> rfl
  · rintro ⟨r, hr, hs⟩
    have hres : (responseRejected (ρ := ρ) e b).2
        = { localStorage := removeItem b.localStorage "token", href := "/login" } := by
      simp [responseRejected, hr, hs]
    rw [hres]
    exact ⟨getProp_removeItem_self _ _, fun k hk => getProp_removeItem_other _ _ _ hk, rfl⟩
  · intro h
    have hcond : ¬ (e.response.map (fun r => r.status) = some 401) := by
      intro hc
      apply h
      cases hr : e.response with
      | none => rw [hr] at hc; cases hc
      | some r =>
        rw [hr] at hc
        exact ⟨r, rfl, by simpa using hc⟩
    simp [responseRejected, hcond]

/-- Witness of C9: a 401 error clears the token and redirects; a 500 error and
a network error without response leave the browser as it was. -/
theorem responseInterceptor_effects_witness :
    (getProp (responseRejected (ρ := Unit) ⟨"Unauthorized", some ⟨401⟩⟩
        ⟨[("theme", "dark"), ("token", "abc")], "/"⟩).2.localStorage "token" = none ∧
      (∀ k, k ≠ "token" →
        getProp (responseRejected (ρ := Unit) ⟨"Unauthorized", some ⟨401⟩⟩
          ⟨[("theme", "dark"), ("token", "abc")], "/"⟩).2.localStorage k
          = getProp [("theme", "dark"), ("token", "abc")] k) ∧
      (responseRejected (ρ := Unit) ⟨"Unauthorized", some ⟨401⟩⟩
        ⟨[("theme", "dark"), ("token", "abc")], "/"⟩).2.href = "/login") ∧
    (responseRejected (ρ := Unit) ⟨"Server Error", some ⟨500⟩⟩
        ⟨[("token", "abc")], "/"⟩).2 = ⟨[("token", "abc")], "/"⟩ ∧
    (responseRejected (ρ := Unit) ⟨"Network Error", none⟩
        ⟨[("token", "abc")], "/"⟩).2 = ⟨[("token", "abc")], "/"⟩ :=
  ⟨(responseInterceptor_effects (ρ := Unit) ⟨"Unauthorized", some ⟨401⟩⟩
      ⟨[("theme", "dark"), ("token", "abc")], "/"⟩ ()).2.1 ⟨⟨401⟩, rfl, rfl⟩,
   (responseInterceptor_effects (ρ := Unit) ⟨"Server Error", some ⟨500⟩⟩
      ⟨[("token", "abc")], "/"⟩ ()).2.2.1 (by decide),
   (responseInterceptor_effects (ρ := Unit) ⟨"Network Error", none⟩
      ⟨[("token", "abc")], "/"⟩ ()).2.2.1 (by decide)⟩

/-! ### Dashboard: recent alerts -/

/-- C10: the "Recent Alerts" panel renders exactly the first `min 5 |A|` alerts
of the fetched list `A`, in the order of `A` (the element at position `i` is
the rendering of `A[i]` for `i < 5` and there is none from position 5 on), so
that with `A` newest-first every alert shown is newer than every alert left
out; the "Alerts" card shows the full count `|A|`. -/
theorem recentAlerts_first_five {ι : Type} [ToString ι] (A : List (AlertData ι)) :
    (recentAlerts A).length = min 5 A.length ∧
    (∀ i, (recentAlerts A)[i]? = if i < 5 then (A[i]?).map renderAlert else none) ∧
    (∀ newer : AlertData ι → AlertData ι → Prop, A.Pairwise newer →
      ∀ x ∈ A.take 5, ∀ y ∈ A.drop 5, newer x y) ∧
    recentAlerts A = (A.take 5).map renderAlert ∧
    alertsCard A = A.length := by
  refine ⟨by simp [recentAlerts], ?_, ?_, rfl, rfl⟩
  · intro i
    by_cases h : i < 5
    · simp [recentAlerts, List.getElem?_take, h]
    · simp [recentAlerts, List.getElem?_take, h]
  · intro newer hp x hx y hy
    have h := hp
    rw [← List.take_append_drop 5 A] at h
    exact (List.pairwise_append.mp h).2.2 x hx y hy

/-- Witness of C10: seven alerts listed newest first (higher id is newer);
every alert among the first five has a higher id than the two left out. -/
theorem recentAlerts_first_five_witness :
    ∀ x ∈ List.take 5 ([⟨7, "INFO", "g", 1⟩, ⟨6, "INFO", "f", 1⟩, ⟨5, "WARNING", "e", 2⟩,
        ⟨4, "INFO", "d", 1⟩, ⟨3, "CRITICAL", "c", 3⟩, ⟨2, "INFO", "b", 1⟩,
        ⟨1, "INFO", "a", 1⟩] : List (AlertData Nat)),
      ∀ y ∈ List.drop 5 ([⟨7, "INFO", "g", 1⟩, ⟨6, "INFO", "f", 1⟩, ⟨5, "WARNING", "e", 2⟩,
        ⟨4, "INFO", "d", 1⟩, ⟨3, "CRITICAL", "c", 3⟩, ⟨2, "INFO", "b", 1⟩,
        ⟨1, "INFO", "a", 1⟩] : List (AlertData Nat)), y.id < x.id :=
  (recentAlerts_first_five _).2.2.1 (fun x y => y.id < x.id) (by simp)

/-! ### Alert deduplication -/

theorem filter_map_preserve {α : Type} (p : α → Bool) (f : α → α)
    (hp : ∀ a, p (f a) = p a) (l : List α) :
    (l.map f).filter p = (l.filter p).map f := by
  induction l with
  | nil => rfl
  | cons a rest ih =>
    cases h : p a <;> simp [List.filter, hp, h, ih]

theorem openFor_raise_update (b b' : Nat) (k k' : ConditionKind) (sev : Severity)
    (t : Nat) (a : Alert) :
    Alert.openFor b' k' (if a.openFor b k then
        { a with severity := Severity.escalate a.severity sev, lastSeenAt := t }
      else a) = a.openFor b' k' := by
  split <;> rfl

theorem id_raise_update (b : Nat) (k : ConditionKind) (sev : Severity) (t : Nat)
    (a : Alert) :
    (if a.openFor b k then
        { a with severity := Severity.escalate a.severity sev, lastSeenAt := t }
      else a).id = a.id := by
  split <;> rfl

theorem openAlerts_eq_nil_of_any_false (alerts : List Alert) (b : Nat) (k : ConditionKind)
    (h : alerts.any (Alert.openFor b k) = false) : openAlerts alerts b k = [] := by
  unfold openAlerts
  induction alerts with
  | nil => rfl
  | cons a rest ih =>
    simp only [List.any_cons, Bool.or_eq_false_iff] at h
    simp [List.filter, h.1, ih h.2]

theorem any_of_openAlerts_ne_nil (alerts : List Alert) (b : Nat) (k : ConditionKind)
    (h : openAlerts alerts b k ≠ []) : alerts.any (Alert.openFor b k) = true := by
  cases hany : alerts.any (Alert.openFor b k) with
  | true => rfl
  | false => exact absurd (openAlerts_eq_nil_of_any_false alerts b k hany) h

/-- With an alert open for `(b, k)`, `raise` keeps every alert's identity and
its being open or not: the open alerts of any pair are the old ones, updated. -/
theorem openAlerts_raise_of_open (alerts : List Alert) (n b : Nat) (k : ConditionKind)
    (sev : Severity) (t b' : Nat) (k' : ConditionKind)
    (h : alerts.any (Alert.openFor b k) = true) :
    (openAlerts (raise alerts n b k sev t).1 b' k').length
      = (openAlerts alerts b' k').length ∧
    (openAlerts (raise alerts n b k sev t).1 b' k').map Alert.id
      = (openAlerts alerts b' k').map Alert.id := by
  have hr : (raise alerts n b k sev t).1 = alerts.map (fun a =>
      if a.openFor b k then
        { a with severity := Severity.escalate a.severity sev, lastSeenAt := t }
      else a) := by
    simp [raise, h]
  rw [hr]
  unfold openAlerts
  rw [filter_map_preserve _ _ (openFor_raise_update b b' k k' sev t)]
  refine ⟨by simp, ?_⟩
  rw [List.map_map]
  apply List.map_congr_left
  intro a _
  exact id_raise_update b k sev t a

/-- With no alert open for `(b, k)`, `raise` appends one open alert for that
pair and leaves the other pairs as they were. -/
theorem openAlerts_raise_of_none (alerts : List Alert) (n b : Nat) (k : ConditionKind)
    (sev : Severity) (t b' : Nat) (k' : ConditionKind)
    (h : alerts.any (Alert.openFor b k) = false) :
    openAlerts (raise alerts n b k sev t).1 b' k'
      = openAlerts alerts b' k' ++
        (if b' = b ∧ k' = k then [Alert.opened n b k sev t] else []) := by
  have hr : (raise alerts n b k sev t).1 = alerts ++ [Alert.opened n b k sev t] := by
    simp [raise, h]
  rw [hr]
  unfold openAlerts
  rw [List.filter_append]
  congr 1
  by_cases hb : b' = b ∧ k' = k
  · obtain ⟨rfl, rfl⟩ := hb
    simp [List.filter, Alert.openFor, Alert.opened]
  · have : Alert.openFor b' k' (Alert.opened n b k sev t) = false := by
      simp only [Alert.openFor, Alert.opened, decide_True, Bool.and_true,
        Bool.and_eq_false_iff, decide_eq_false_iff_not]
      by_cases h1 : b = b'
      · right
        intro h2
        exact hb ⟨h1.symm, h2.symm⟩
      · left
        exact h1
    simp [List.filter, this, hb]

theorem atMostOneOpen_raise (alerts : List Alert) (n b : Nat) (k : ConditionKind)
    (sev : Severity) (t : Nat) (hinv : AtMostOneOpen alerts) :
    AtMostOneOpen (raise alerts n b k sev t).1 := by
  intro b' k'
  cases h : alerts.any (Alert.openFor b k) with
  | true =>
    rw [(openAlerts_raise_of_open alerts n b k sev t b' k' h).1]
    exact hinv b' k'
  | false =>
    rw [openAlerts_raise_of_none alerts n b k sev t b' k' h]
    by_cases hb : b' = b ∧ k' = k
    · obtain ⟨rfl, rfl⟩ := hb
      simp [openAlerts_eq_nil_of_any_false alerts b' k' h]
    · simpa [hb] using hinv b' k'

/-- After `raise` there is exactly one open alert for the raised pair. -/
theorem openAlerts_raise_self (alerts : List Alert) (n b : Nat) (k : ConditionKind)
    (sev : Severity) (t : Nat) (hinv : AtMostOneOpen alerts) :
    (openAlerts (raise alerts n b k sev t).1 b k).length = 1 := by
  cases h : alerts.any (Alert.openFor b k) with
  | true =>
    rw [(openAlerts_raise_of_open alerts n b k sev t b k h).1]
    have h1 := hinv b k
    have h2 : openAlerts alerts b k ≠ [] := by
      intro hnil
      unfold openAlerts at hnil
      rw [List.any_eq_true] at h
      obtain ⟨a, ha, hp⟩ := h
      have : a ∈ List.filter (Alert.openFor b k) alerts := List.mem_filter.mpr ⟨ha, hp⟩
      rw [hnil] at this
      cases this
    have h3 : 0 < (openAlerts alerts b k).length := List.length_pos.mpr h2
    omega
  | false =>
    rw [openAlerts_raise_of_none alerts n b k sev t b k h]
    simp [openAlerts_eq_nil_of_any_false alerts b k h]

theorem openAlerts_resolve_other (alerts : List Alert) (b : Nat) (k : ConditionKind)
    (b' : Nat) (k' : ConditionKind) (h : ¬ (b' = b ∧ k' = k)) :
    openAlerts (resolve alerts b k) b' k' = openAlerts alerts b' k' := by
  unfold openAlerts resolve
  induction alerts with
  | nil => rfl
  | cons a rest ih =>
    simp only [List.map_cons]
    cases ho : a.openFor b k with
    | false =>
      simp only [Bool.false_eq_true, if_false]
      cases ho' : a.openFor b' k' <;> simp [List.filter, ho', ih]
    | true =>
      have hab : a.batteryId = b ∧ a.kind = k := by
        simp only [Alert.openFor, Bool.and_eq_true, decide_eq_true_eq] at ho
        exact ⟨ho.1.1, ho.1.2⟩
      have h1 : a.openFor b' k' = false := by
        cases hc : a.openFor b' k' with
        | false => rfl
        | true =>
          simp only [Alert.openFor, Bool.and_eq_true, decide_eq_true_eq] at hc
          exact absurd ⟨hc.1.1.symm.trans hab.1, hc.1.2.symm.trans hab.2⟩ h
      have h2 : Alert.openFor b' k' { a with status := AlertStatus.RESOLVED } = false := by
        simp [Alert.openFor]
      simp [List.filter, h1, h2, ih]

theorem openAlerts_resolve_self (alerts : List Alert) (b : Nat) (k : ConditionKind) :
    openAlerts (resolve alerts b k) b k = [] := by
  unfold openAlerts resolve
  induction alerts with
  | nil => rfl
  | cons a rest ih =>
    simp only [List.map_cons]
    cases ho : a.openFor b k with
    | false => simp [List.filter, ho, ih]
    | true =>
      have h2 : Alert.openFor b k { a with status := AlertStatus.RESOLVED } = false := by
        simp [Alert.openFor]
      simp [List.filter, h2, ih]

theorem atMostOneOpen_resolve (alerts : List Alert) (b : Nat) (k : ConditionKind)
    (hinv : AtMostOneOpen alerts) : AtMostOneOpen (resolve alerts b k) := by
  intro b' k'
  by_cases hb : b' = b ∧ k' = k
  · obtain ⟨rfl, rfl⟩ := hb
    simp [openAlerts_resolve_self]
  · rw [openAlerts_resolve_other alerts b k b' k' hb]
    exact hinv b' k'

theorem atMostOneOpen_statusStep (cfg : AlertConfig) (h : Nat) (e : Evaluation)
    (p : List Alert × Nat) (hinv : AtMostOneOpen p.1) :
    AtMostOneOpen (statusStep cfg h e p).1 := by
  unfold statusStep
  split
  · exact atMostOneOpen_raise _ _ _ _ _ _ hinv
  · exact atMostOneOpen_raise _ _ _ _ _ _ hinv
  · split
    · exact atMostOneOpen_resolve _ _ _ hinv
    · exact hinv
  · exact hinv

theorem atMostOneOpen_trendStep (cfg : AlertConfig) (d st : Nat) (e : Evaluation)
    (p : List Alert × Nat) (hinv : AtMostOneOpen p.1) :
    AtMostOneOpen (trendStep cfg d st e p).1 := by
  unfold trendStep
  split
  · split
    · exact atMostOneOpen_raise _ _ _ _ _ _ hinv
    · exact hinv
  · split
    · exact atMostOneOpen_resolve _ _ _ hinv
    · exact hinv

theorem atMostOneOpen_evaluate (cfg : AlertConfig) (s : Engine) (e : Evaluation)
    (hinv : AtMostOneOpen s.alerts) : AtMostOneOpen (evaluate cfg s e).alerts := by
  unfold evaluate
  split
  · exact hinv
  · exact atMostOneOpen_trendStep _ _ _ _ _ (atMostOneOpen_statusStep _ _ _ _ hinv)

theorem atMostOneOpen_run (cfg : AlertConfig) (es : List Evaluation) (s : Engine)
    (hinv : AtMostOneOpen s.alerts) :
    AtMostOneOpen (runEvaluations cfg s es).alerts := by
  induction es generalizing s with
  | nil => exact hinv
  | cons e rest ih => exact ih (evaluate cfg s e) (atMostOneOpen_evaluate cfg s e hinv)

theorem atMostOneOpen_empty : AtMostOneOpen Engine.empty.alerts := by
  intro b k
  simp [Engine.empty, openAlerts]

/-- The declining-trend condition leaves the open degraded-status alerts of
every battery in place. -/
theorem trendStep_degraded (cfg : AlertConfig) (d st : Nat) (e : Evaluation)
    (p : List Alert × Nat) (b : Nat) :
    (openAlerts (trendStep cfg d st e p).1 b .degradedStatus).map Alert.id
      = (openAlerts p.1 b .degradedStatus).map Alert.id := by
  have hne : ¬ (b = e.batteryId ∧ ConditionKind.degradedStatus = ConditionKind.decliningTrend) := by
    rintro ⟨_, h⟩
    cases h
  unfold trendStep
  split
  · split
    · cases hany : p.1.any (Alert.openFor e.batteryId .decliningTrend) with
      | true => exact (openAlerts_raise_of_open _ _ _ _ _ _ b .degradedStatus hany).2
      | false =>
        rw [openAlerts_raise_of_none _ _ _ _ _ _ b .degradedStatus hany]
        simp
    · rfl
  · split
    · rw [openAlerts_resolve_other _ _ _ b .degradedStatus hne]
    · rfl

theorem evaluate_of_stale (cfg : AlertConfig) (s : Engine) (e : Evaluation)
    (h : s.stale e = true) : evaluate cfg s e = s := by
  simp [evaluate, h]

theorem evaluate_of_fresh (cfg : AlertConfig) (s : Engine) (e : Evaluation)
    (h : s.stale e = false) :
    evaluate cfg s e =
      { batteries := Function.update s.batteries e.batteryId
          ((s.batteries e.batteryId).advance e),
        alerts := (trendStep cfg ((s.batteries e.batteryId).advance e).decliningRun
          ((s.batteries e.batteryId).advance e).steadyRun e
          (statusStep cfg ((s.batteries e.batteryId).advance e).healthyRun e
            (s.alerts, s.nextAlertId))).1,
        nextAlertId := (trendStep cfg ((s.batteries e.batteryId).advance e).decliningRun
          ((s.batteries e.batteryId).advance e).steadyRun e
          (statusStep cfg ((s.batteries e.batteryId).advance e).healthyRun e
            (s.alerts, s.nextAlertId))).2 } := by
  simp [evaluate, h]

/-- After any evaluation, the same evaluation brings no new telemetry. -/
theorem stale_after_evaluate (cfg : AlertConfig) (s : Engine) (e : Evaluation) :
    (evaluate cfg s e).stale e = true := by
  cases h : s.stale e with
  | true => rw [evaluate_of_stale cfg s e h]; exact h
  | false =>
    rw [evaluate_of_fresh cfg s e h]
    simp [Engine.stale, BatteryRecord.advance]

theorem evaluate_idempotent (cfg : AlertConfig) (s : Engine) (e : Evaluation) :
    evaluate cfg (evaluate cfg s e) e = evaluate cfg s e :=
  evaluate_of_stale cfg _ e (stale_after_evaluate cfg s e)

/-- An evaluation with new telemetry and status `CRITICAL` leaves exactly one
open degraded-status alert for its battery; when one was open before, it is
that alert. -/
theorem evaluate_critical (cfg : AlertConfig) (s : Engine) (e : Evaluation)
    (hinv : AtMostOneOpen s.alerts) (hfresh : s.stale e = false)
    (hc : e.status = .CRITICAL) :
    (openAlerts (evaluate cfg s e).alerts e.batteryId .degradedStatus).length = 1 ∧
    (openAlerts s.alerts e.batteryId .degradedStatus ≠ [] →
      (openAlerts (evaluate cfg s e).alerts e.batteryId .degradedStatus).map Alert.id
        = (openAlerts s.alerts e.batteryId .degradedStatus).map Alert.id) := by
  rw [evaluate_of_fresh cfg s e hfresh]
  simp only
  have hs : ∀ h, statusStep cfg h e (s.alerts, s.nextAlertId)
      = raise s.alerts s.nextAlertId e.batteryId .degradedStatus .CRITICAL e.timestamp := by
    intro h
    simp [statusStep, hc]
  have hlen := congrArg List.length (trendStep_degraded cfg
    ((s.batteries e.batteryId).advance e).decliningRun
    ((s.batteries e.batteryId).advance e).steadyRun e
    (statusStep cfg ((s.batteries e.batteryId).advance e).healthyRun e
      (s.alerts, s.nextAlertId)) e.batteryId)
  simp only [List.length_map] at hlen
  constructor
  · rw [hlen, hs]
    exact openAlerts_raise_self _ _ _ _ _ _ hinv
  · intro hne
    rw [trendStep_degraded, hs]
    exact (openAlerts_raise_of_open _ _ _ _ _ _ _ _
      (any_of_openAlerts_ne_nil _ _ _ hne)).2

/-- C6: after every sequence of evaluations there is at most one `OPEN` alert
per (battery, condition-kind) pair; two consecutive evaluations of a battery
that both yield `CRITICAL` leave exactly one `OPEN` degraded-status alert for
it, the second updating the alert of the first instead of adding one; and
re-running an evaluation with identical input changes neither the alerts nor
any battery's status. -/
theorem alerts_deduplicated (cfg : AlertConfig) (es : List Evaluation)
    (e1 e2 e : Evaluation) :
    (∀ b k, (openAlerts (runEvaluations cfg Engine.empty es).alerts b k).length ≤ 1) ∧
    ((e1.batteryId = e2.batteryId ∧ e1.status = .CRITICAL ∧ e2.status = .CRITICAL ∧
        (runEvaluations cfg Engine.empty es).stale e1 = false ∧
        e1.timestamp < e2.timestamp) →
      (openAlerts (runEvaluations cfg Engine.empty (es ++ [e1, e2])).alerts
        e1.batteryId .degradedStatus).length = 1 ∧
      (openAlerts (runEvaluations cfg Engine.empty (es ++ [e1, e2])).alerts
        e1.batteryId .degradedStatus).map Alert.id
        = (openAlerts (runEvaluations cfg Engine.empty (es ++ [e1])).alerts
          e1.batteryId .degradedStatus).map Alert.id) ∧
    (runEvaluations cfg Engine.empty (es ++ [e, e])).alerts
      = (runEvaluations cfg Engine.empty (es ++ [e])).alerts ∧
    (∀ b, ((runEvaluations cfg Engine.empty (es ++ [e, e])).batteries b).currentStatus
      = ((runEvaluations cfg Engine.empty (es ++ [e])).batteries b).currentStatus) := by
  have hrun : ∀ l, runEvaluations cfg Engine.empty (es ++ l)
      = runEvaluations cfg (runEvaluations cfg Engine.empty es) l := by
    intro l
    simp [runEvaluations, List.foldl_append]
  have hone : ∀ (s : Engine) (a : Evaluation),
      runEvaluations cfg s [a] = evaluate cfg s a := fun _ _ => rfl
  have htwo : ∀ (s : Engine) (a a' : Evaluation),
      runEvaluations cfg s [a, a'] = evaluate cfg (evaluate cfg s a) a' := fun _ _ _ => rfl
  have hinv := atMostOneOpen_run cfg es Engine.empty atMostOneOpen_empty
  have hidem : runEvaluations cfg Engine.empty (es ++ [e, e])
      = runEvaluations cfg Engine.empty (es ++ [e]) := by
    rw [hrun, hrun, hone, htwo]
    exact evaluate_idempotent cfg _ e
  refine ⟨hinv, ?_, by rw [hidem], fun b => by rw [hidem]⟩
  rintro ⟨hb, hc1, hc2, hfresh, hlt⟩
  rw [hrun, hrun, hone, htwo]
  have h1 := evaluate_critical cfg _ e1 hinv hfresh hc1
  have hinv1 := atMostOneOpen_evaluate cfg _ e1 hinv
  have hfresh2 : (evaluate cfg (runEvaluations cfg Engine.empty es) e1).stale e2
      = false := by
    unfold Engine.stale
    rw [evaluate_of_fresh cfg _ e1 hfresh, ← hb]
    simpa [BatteryRecord.advance] using hlt
  have h2 := evaluate_critical cfg _ e2 hinv1 hfresh2 hc2
  rw [← hb] at h2
  refine ⟨h2.1, h2.2 ?_⟩
  intro hnil
  have hlen := h1.1
  rw [hnil] at hlen
  cases hlen

/-- Witness of C6: battery 7 is evaluated `HEALTHY` at time 1, then `CRITICAL`
at times 2 and 3 (defaults `N = 3`, `M = 2`); one open degraded-status alert
results, the one created at time 2. -/
theorem alerts_deduplicated_witness :
    (openAlerts (runEvaluations ⟨3, 2, .WARNING⟩ Engine.empty
        ([⟨7, 1, .HEALTHY, .STABLE⟩] ++
          [⟨7, 2, .CRITICAL, .DECLINING⟩, ⟨7, 3, .CRITICAL, .DECLINING⟩])).alerts
      7 .degradedStatus).length = 1 ∧
    (openAlerts (runEvaluations ⟨3, 2, .WARNING⟩ Engine.empty
        ([⟨7, 1, .HEALTHY, .STABLE⟩] ++
          [⟨7, 2, .CRITICAL, .DECLINING⟩, ⟨7, 3, .CRITICAL, .DECLINING⟩])).alerts
      7 .degradedStatus).map Alert.id
      = (openAlerts (runEvaluations ⟨3, 2, .WARNING⟩ Engine.empty
        ([⟨7, 1, .HEALTHY, .STABLE⟩] ++ [⟨7, 2, .CRITICAL, .DECLINING⟩])).alerts
      7 .degradedStatus).map Alert.id :=
  (alerts_deduplicated ⟨3, 2, .WARNING⟩ [⟨7, 1, .HEALTHY, .STABLE⟩]
    ⟨7, 2, .CRITICAL, .DECLINING⟩ ⟨7, 3, .CRITICAL, .DECLINING⟩
    ⟨7, 3, .CRITICAL, .DECLINING⟩).2.1 ⟨rfl, rfl, rfl, by decide, by decide⟩

/-! ### Dashboard: the two reads update the state together -/

/-- C11: whatever the outcomes of the two reads of `fetchDashboardData`, started
from any held state `s`: when both `fetchBatteryStats` and `fetchAlerts`
succeed, `batteryStats` and `alerts` are both replaced by the fetched values;
when either fails, both keep their previous values; so the state afterwards is
either fully replaced or fully kept, never one without the other; and
`loading` is false afterwards in every case. -/
theorem fetchDashboardData_atomic {ι : Type}
    (getStats : String → Except JsError (AxiosResponse BatteryStats))
    (getAlerts : String → Except JsError (AxiosResponse (List (AlertData ι))))
    (s : DashboardState ι) :
    (∀ stats alertsData,
      (fetchBatteryStats getStats = .ok stats ∧ fetchAlerts getAlerts = .ok alertsData) →
      (fetchDashboardData getStats getAlerts s).state.batteryStats = stats ∧
      (fetchDashboardData getStats getAlerts s).state.alerts = alertsData) ∧
    (((∃ err, fetchBatteryStats getStats = .error err) ∨
        (∃ err, fetchAlerts getAlerts = .error err)) →
      (fetchDashboardData getStats getAlerts s).state.batteryStats = s.batteryStats ∧
      (fetchDashboardData getStats getAlerts s).state.alerts = s.alerts) ∧
    (((fetchDashboardData getStats getAlerts s).state.batteryStats = s.batteryStats ∧
        (fetchDashboardData getStats getAlerts s).state.alerts = s.alerts) ∨
      (fetchBatteryStats getStats
          = .ok (fetchDashboardData getStats getAlerts s).state.batteryStats ∧
        fetchAlerts getAlerts
          = .ok (fetchDashboardData getStats getAlerts s).state.alerts)) ∧
    (fetchDashboardData getStats getAlerts s).state.loading = false := by
  cases hs : fetchBatteryStats getStats with
  | error e1 =>
    refine ⟨?_, ?_, ?_, ?_⟩
    · rintro stats alertsData ⟨h, _⟩
      cases h
    · intro _
      simp [fetchDashboardData, hs]
    · left
      simp [fetchDashboardData, hs]
    · simp [fetchDashboardData, hs]
  | ok stats0 =>
    cases ha : fetchAlerts getAlerts with
    | error e2 =>
      refine ⟨?_, ?_, ?_, ?_⟩
      · rintro stats alertsData ⟨_, h⟩
        cases h
      · intro _
        simp [fetchDashboardData, hs, ha]
      · left
        simp [fetchDashboardData, hs, ha]
      · simp [fetchDashboardData, hs, ha]
    | ok alerts0 =>
      refine ⟨?_, ?_, ?_, ?_⟩
      · rintro stats alertsData ⟨h1, h2⟩
        cases h1
        cases h2
        simp [fetchDashboardData, hs, ha]
      · rintro (⟨err, h⟩ | ⟨err, h⟩) <;> cases h
      · right
        simp [fetchDashboardData, hs, ha]
      · simp [fetchDashboardData, hs, ha]

/-- Witness of C11: from a state holding stats `{3,1,1,1}` and one alert, a
fetch in which both reads succeed replaces both, and a fetch in which the
stats read succeeds but the alerts read fails keeps both. -/
theorem fetchDashboardData_atomic_witness :
    ((fetchDashboardData (ι := Nat) (fun _ => .ok ⟨⟨5, 2, 2, 1⟩, 200⟩)
          (fun _ => .ok ⟨[], 200⟩)
          ⟨⟨3, 1, 1, 1⟩, [⟨1, "CRITICAL", "hot", 7⟩], true⟩).state.batteryStats
        = ⟨5, 2, 2, 1⟩ ∧
      (fetchDashboardData (ι := Nat) (fun _ => .ok ⟨⟨5, 2, 2, 1⟩, 200⟩)
          (fun _ => .ok ⟨[], 200⟩)
          ⟨⟨3, 1, 1, 1⟩, [⟨1, "CRITICAL", "hot", 7⟩], true⟩).state.alerts = []) ∧
    ((fetchDashboardData (ι := Nat) (fun _ => .ok ⟨⟨5, 2, 2, 1⟩, 200⟩)
          (fun _ => .error ⟨"Network Error", none⟩)
          ⟨⟨3, 1, 1, 1⟩, [⟨1, "CRITICAL", "hot", 7⟩], true⟩).state.batteryStats
        = ⟨3, 1, 1, 1⟩ ∧
      (fetchDashboardData (ι := Nat) (fun _ => .ok ⟨⟨5, 2, 2, 1⟩, 200⟩)
          (fun _ => .error ⟨"Network Error", none⟩)
          ⟨⟨3, 1, 1, 1⟩, [⟨1, "CRITICAL", "hot", 7⟩], true⟩).state.alerts
        = [⟨1, "CRITICAL", "hot", 7⟩]) :=
  ⟨(fetchDashboardData_atomic (ι := Nat) (fun _ => .ok ⟨⟨5, 2, 2, 1⟩, 200⟩)
      (fun _ => .ok ⟨[], 200⟩)
      ⟨⟨3, 1, 1, 1⟩, [⟨1, "CRITICAL", "hot", 7⟩], true⟩).1 _ _ ⟨rfl, rfl⟩,
   (fetchDashboardData_atomic (ι := Nat) (fun _ => .ok ⟨⟨5, 2, 2, 1⟩, 200⟩)
      (fun _ => .error ⟨"Network Error", none⟩)
      ⟨⟨3, 1, 1, 1⟩, [⟨1, "CRITICAL", "hot", 7⟩], true⟩).2.1 (Or.inr ⟨_, rfl⟩)⟩

end AIBMS
